import Mathlib

/-! Verification development for the Unified Package Manager (UPM) core:
the soft-delete persistence contracts of `database.py`, the preference
whitelist of `database.py`, the search aggregation loop of
`main.py` (`SearchWorker.run`), and the rate limiters of
`rate_limiter.py` (`RateLimiter`, `MultiRateLimiter`,
`AdaptiveRateLimiter`), together with the search entry points of
`apt_backend.py`, `snap_backend.py` and `flatpak_backend.py`.

Python state is modelled by explicit state passing: each mutating method
becomes a function from the old state (plus the inputs the Python code
reads from the environment, such as the current time) to the new state
and the returned value.  Timestamps are rationals (wall-clock seconds) or
naturals (database timestamps); Python float arithmetic on these values
is modelled exactly over `Rat`, which agrees with the float computation
on all concrete inputs used below. -/

namespace UPM

/-! Part 1: the `installed_apps` table of `database.py`.

The table is created by `DatabaseManager.create_tables`
(`database.py` lines 63-75) with columns
`id INTEGER PRIMARY KEY AUTOINCREMENT`, `name`, `package_name TEXT NOT
NULL UNIQUE`, `package_type`, `source_repo`, `version`, `description`,
`install_date`, `deleted_at TIMESTAMP DEFAULT NULL`.  Note that the
`UNIQUE` constraint on `package_name` ranges over every row of the
table, soft-deleted rows included. -/

/-- Row of the `installed_apps` table (`database.py` lines 63-75). -/
structure AppRow where
  rowId : Nat
  name : String
  package_name : String
  package_type : String
  source_repo : String
  version : String
  description : String
  install_date : Nat
  deleted_at : Option Nat
  deriving Repr, DecidableEq

/-- State of the `installed_apps` table held by `DatabaseManager`:
the rows in insertion order plus the next `AUTOINCREMENT` id. -/
structure InstalledAppsDB where
  installed_apps : List AppRow
  next_id : Nat
  deriving Repr, DecidableEq

/-- Embeds `DatabaseManager.add_installed_app` (`database.py` lines
135-147): `INSERT INTO installed_apps ...` returns `True`, except that a
`sqlite3.IntegrityError` from the `UNIQUE` constraint on `package_name`
(raised when any row, soft-deleted or not, already carries
`package_name`) is caught and `False` is returned with the table
unchanged.  `now` stands for the `CURRENT_TIMESTAMP` default filling
`install_date`. -/
def add_installed_app (db : InstalledAppsDB) (now : Nat)
    (name package_name package_type source_repo version description : String) :
    Bool × InstalledAppsDB :=
  if db.installed_apps.any (fun r => r.package_name == package_name) then
    (false, db)
  else
    (true,
      { installed_apps := db.installed_apps ++
          [{ rowId := db.next_id, name := name, package_name := package_name,
             package_type := package_type, source_repo := source_repo,
             version := version, description := description,
             install_date := now, deleted_at := none }],
        next_id := db.next_id + 1 })

/-- Embeds `DatabaseManager.remove_installed_app` (`database.py` lines
149-156): `UPDATE installed_apps SET deleted_at = ? WHERE package_name =
? AND deleted_at IS NULL`, with `now` the `datetime.now(timezone.utc)`
argument. -/
def remove_installed_app (db : InstalledAppsDB) (now : Nat) (package_name : String) :
    InstalledAppsDB :=
  { db with
    installed_apps := db.installed_apps.map (fun r =>
      if r.package_name == package_name && r.deleted_at == none then
        { r with deleted_at := some now }
      else r) }

/-- Embeds `DatabaseManager.is_app_installed` (`database.py` lines
189-196): `SELECT COUNT(*) ... WHERE package_name = ? AND deleted_at IS
NULL` compared against `0`. -/
def is_app_installed (db : InstalledAppsDB) (package_name : String) : Bool :=
  db.installed_apps.any (fun r => r.package_name == package_name && r.deleted_at == none)

/-- Rows of the table that are active (not soft-deleted) for a given
`package_name`; used to state the at-most-one-active-row invariant. -/
def activeRows (db : InstalledAppsDB) (package_name : String) : List AppRow :=
  db.installed_apps.filter (fun r => r.package_name == package_name && r.deleted_at == none)

/-! Part 2: the preference whitelist of `database.py`. -/

/-- Embeds `DatabaseManager.ALLOWED_PREFERENCE_KEYS` (`database.py`
lines 16-24). -/
def ALLOWED_PREFERENCE_KEYS : List String :=
  ["repo_flathub_enabled", "repo_snapd_enabled", "repo_apt_enabled",
   "notifications_enabled", "log_retention_days", "auto_save_metadata"]

/-- Singleton row of the `user_prefs` table (`database.py` lines 86-96);
SQLite stores booleans and integers uniformly, modelled as `Int`. -/
structure PrefsRow where
  repo_flathub_enabled : Int
  repo_snapd_enabled : Int
  repo_apt_enabled : Int
  notifications_enabled : Int
  log_retention_days : Int
  auto_save_metadata : Int
  deriving Repr, DecidableEq

/-- Slice of `DatabaseManager` state relevant to preferences: the set of
existing tables (for table-dropping concerns) and the singleton
`user_prefs` row. -/
structure UserPrefsDB where
  tables : List String
  prefs : PrefsRow
  deriving Repr, DecidableEq

/-- Effect of the SQL `UPDATE user_prefs SET <key> = ? WHERE id = 1` on
the singleton row, for a whitelisted `key`; any other `key` leaves the
row unchanged (such an update is never executed by the code). -/
def setPref (row : PrefsRow) (key : String) (value : Int) : PrefsRow :=
  if key = "repo_flathub_enabled" then { row with repo_flathub_enabled := value }
  else if key = "repo_snapd_enabled" then { row with repo_snapd_enabled := value }
  else if key = "repo_apt_enabled" then { row with repo_apt_enabled := value }
  else if key = "notifications_enabled" then { row with notifications_enabled := value }
  else if key = "log_retention_days" then { row with log_retention_days := value }
  else if key = "auto_save_metadata" then { row with auto_save_metadata := value }
  else row

/-- Embeds `DatabaseManager.update_preference` (`database.py` lines
233-240).  The returned triple is the outcome (`Except.error` embeds the
raised `ValueError`), the new database state, and the list of SQL query
strings executed against storage, in order.  The key check happens
before the query string is built, so on the error path no query is
constructed or executed and the state is returned untouched. -/
def update_preference (db : UserPrefsDB) (key : String) (value : Int) :
    Except String Unit × UserPrefsDB × List String :=
  if key ∉ ALLOWED_PREFERENCE_KEYS then
    (Except.error ("Invalid preference key: " ++ key), db, [])
  else
    (Except.ok (),
     { db with prefs := setPref db.prefs key value },
     ["UPDATE user_prefs SET " ++ key ++ " = ? WHERE id = 1"])

/-! Part 3: `RateLimiter` and `MultiRateLimiter` from `rate_limiter.py`. -/

/-- State of a `RateLimiter` instance (`rate_limiter.py` lines 21-32):
configured capacity, window length in seconds, and the deque of admitted
request timestamps (front = oldest). -/
structure RateLimiter where
  max_requests : Nat
  time_window : ℚ
  requests : List ℚ
  deriving Repr, DecidableEq

/-- Embeds `RateLimiter.__init__` (`rate_limiter.py` lines 21-32). -/
def RateLimiter.init (max_requests : Nat) (time_window : ℚ) : RateLimiter :=
  { max_requests := max_requests, time_window := time_window, requests := [] }

/-- Embeds `RateLimiter.is_allowed` (`rate_limiter.py` lines 34-57):
pop entries strictly older than `now - time_window` from the front of
the deque, then admit (recording `now`) exactly when fewer than
`max_requests` entries remain.  The `key` parameter is part of the
Python signature and is unused by the body. -/
def RateLimiter.is_allowed (s : RateLimiter) (now : ℚ) (key : String) :
    Bool × RateLimiter :=
  let cutoff := now - s.time_window
  let purged := s.requests.dropWhile (fun t => decide (t < cutoff))
  if purged.length < s.max_requests then
    (true, { s with requests := purged ++ [now] })
  else
    (false, { s with requests := purged })

/-- Embeds `RateLimiter.get_wait_time` (`rate_limiter.py` lines 76-95):
it compares the raw deque length against `max_requests` without purging
stale entries, returning `0` when under the limit and otherwise
`max 0 (oldest + time_window - now)` for the front entry of the deque.
`none` embeds the `IndexError` that `self._requests[0]` would raise on
an empty deque (reachable only when `max_requests = 0`). -/
def RateLimiter.get_wait_time (s : RateLimiter) (now : ℚ) (key : String) : Option ℚ :=
  if s.requests.length < s.max_requests then some 0
  else
    match s.requests with
    | [] => none
    | oldest :: _ => some (max 0 (oldest + s.time_window - now))

/-- State of a `MultiRateLimiter` (`rate_limiter.py` lines 103-119): the
default construction parameters and the dictionary of per-key
`RateLimiter` instances, modelled as a function to `Option`. -/
structure MultiRateLimiter where
  default_max_requests : Nat
  default_time_window : ℚ
  limiters : String → Option RateLimiter

/-- Embeds `MultiRateLimiter.__init__` (`rate_limiter.py` lines 108-119). -/
def MultiRateLimiter.init (default_max_requests : Nat) (default_time_window : ℚ) :
    MultiRateLimiter :=
  { default_max_requests := default_max_requests,
    default_time_window := default_time_window,
    limiters := fun _ => none }

/-- Embeds `MultiRateLimiter.get_limiter` (`rate_limiter.py` lines
121-137): return the existing limiter for `key`, or create a fresh one
with the default parameters and store it under `key`. -/
def MultiRateLimiter.get_limiter (m : MultiRateLimiter) (key : String) :
    RateLimiter × MultiRateLimiter :=
  match m.limiters key with
  | some l => (l, m)
  | none =>
    let l := RateLimiter.init m.default_max_requests m.default_time_window
    (l, { m with limiters := fun k => if k = key then some l else m.limiters k })

/-- Embeds `MultiRateLimiter.is_allowed` (`rate_limiter.py` lines
139-141): `self.get_limiter(key).is_allowed(key)`, with the in-place
mutation of the stored limiter made explicit. -/
def MultiRateLimiter.is_allowed (m : MultiRateLimiter) (now : ℚ) (key : String) :
    Bool × MultiRateLimiter :=
  let p := MultiRateLimiter.get_limiter m key
  let r := RateLimiter.is_allowed p.1 now key
  (r.1, { p.2 with limiters := fun k => if k = key then some r.2 else p.2.limiters k })

/-! Part 4: `AdaptiveRateLimiter` from `rate_limiter.py`. -/

/-- State of an `AdaptiveRateLimiter` (`rate_limiter.py` lines 222-243).
The inner `RateLimiter` deque is omitted: the claims below concern
`current_max` and the outcome counters, and the inner limiter is rebuilt
fresh from `current_max` whenever `current_max` changes. -/
structure AdaptiveRateLimiter where
  time_window : Nat
  min_requests : Nat
  max_requests : Nat
  current_max : Nat
  success_count : Nat
  error_count : Nat
  error_threshold : ℚ
  success_threshold : ℚ
  sample_size : Nat
  deriving Repr, DecidableEq

/-- Embeds `AdaptiveRateLimiter.__init__` (`rate_limiter.py` lines
222-243).  The constructor takes exactly `initial_max_requests` and
`time_window`; `sample_size` is not a parameter and is set to the
constant `20`, `error_threshold` to `0.3` and `success_threshold` to
`0.95`. -/
def AdaptiveRateLimiter.init (initial_max_requests : Nat) (time_window : Nat) :
    AdaptiveRateLimiter :=
  { time_window := time_window,
    min_requests := max 1 (initial_max_requests / 10),
    max_requests := initial_max_requests,
    current_max := initial_max_requests,
    success_count := 0,
    error_count := 0,
    error_threshold := 3 / 10,
    success_threshold := 95 / 100,
    sample_size := 20 }

/-- Embeds `AdaptiveRateLimiter._adapt_if_needed` (`rate_limiter.py`
lines 261-290): once `success_count + error_count` reaches
`sample_size`, compare `error_count / total` against the thresholds,
halving `current_max` (floored at `min_requests`) on a high error rate,
multiplying it by `1.5` rounded down (capped at `max_requests`) on a
high success rate, and reset both counters.  `int(x * 1.5)` on a
nonnegative integer `x` equals `x * 3 / 2` in truncated division. -/
def AdaptiveRateLimiter.adapt_if_needed (s : AdaptiveRateLimiter) : AdaptiveRateLimiter :=
  let total := s.success_count + s.error_count
  if total < s.sample_size then s
  else
    let error_rate : ℚ := (s.error_count : ℚ) / (total : ℚ)
    let s1 :=
      if s.error_threshold < error_rate then
        { s with current_max := max s.min_requests (s.current_max / 2) }
      else if error_rate < 1 - s.success_threshold then
        { s with current_max := min s.max_requests (s.current_max * 3 / 2) }
      else s
    { s1 with success_count := 0, error_count := 0 }

/-- Embeds `AdaptiveRateLimiter.record_success` (`rate_limiter.py`
lines 249-253). -/
def AdaptiveRateLimiter.record_success (s : AdaptiveRateLimiter) : AdaptiveRateLimiter :=
  AdaptiveRateLimiter.adapt_if_needed { s with success_count := s.success_count + 1 }

/-- Embeds `AdaptiveRateLimiter.record_error` (`rate_limiter.py`
lines 255-259). -/
def AdaptiveRateLimiter.record_error (s : AdaptiveRateLimiter) : AdaptiveRateLimiter :=
  AdaptiveRateLimiter.adapt_if_needed { s with error_count := s.error_count + 1 }

/-! Part 5: the search aggregation loop of `main.py` (`SearchWorker.run`,
lines 40-64) and the adapter search entry points. -/

/-- Normalized package record, the dictionary shape produced by the
three backend `search_packages` methods. -/
structure Package where
  name : String
  package_name : String
  description : String
  version : String
  package_type : String
  source_repo : String
  installed : Bool
  deriving Repr, DecidableEq, Inhabited

/-- Embeds `SearchWorker.MAX_TOTAL_RESULTS` (`main.py` line 32). -/
def MAX_TOTAL_RESULTS : Nat := 450

/-- Embeds `SearchWorker.MAX_PER_SOURCE` (`main.py` line 33). -/
def MAX_PER_SOURCE : Nat := 150

/-- Behaviour of one backend's `search_packages(query, limit)` as seen
by the aggregation loop: either a result list or a raised exception
(carrying its message).  The loop assumes nothing about how a backend
treats `limit`. -/
abbrev Backend : Type := String → Nat → Except String (List Package)

/-- Embeds the `for backend in self.backends` loop of `SearchWorker.run`
(`main.py` lines 44-56) with its accumulator, together with a count of
how many backend `search_packages` invocations the loop performs.  Each
iteration computes `remaining = MAX_TOTAL_RESULTS - len(results)`
(`remaining <= 0` in Python is `remaining = 0` in truncated `Nat`
subtraction, and `break` is modelled by stopping the recursion), asks
the backend for `min MAX_PER_SOURCE remaining` results, extends the
accumulator with `packages[:remaining]`, and on an exception logs and
continues with the accumulator untouched. -/
def searchLoop : List Backend → String → List Package → Nat → List Package × Nat
  | [], _, results, calls => (results, calls)
  | backend :: rest, query, results, calls =>
    let remaining := MAX_TOTAL_RESULTS - results.length
    if remaining = 0 then (results, calls)
    else
      match backend query (min MAX_PER_SOURCE remaining) with
      | Except.ok packages =>
          searchLoop rest query (results ++ packages.take remaining) (calls + 1)
      | Except.error _ => searchLoop rest query results (calls + 1)

/-- Embeds `SearchWorker.run` (`main.py` lines 40-64): run the loop from
an empty accumulator, then apply the final defensive truncation
`results[:MAX_TOTAL_RESULTS]` when the length exceeds the cap. -/
def searchWorkerRun (backends : List Backend) (query : String) : List Package :=
  let results := (searchLoop backends query [] 0).1
  if MAX_TOTAL_RESULTS < results.length then results.take MAX_TOTAL_RESULTS else results

/-- Number of backend `search_packages` calls performed by one
`SearchWorker.run` execution. -/
def searchWorkerCalls (backends : List Backend) (query : String) : Nat :=
  (searchLoop backends query [] 0).2

/-- Embeds the Python test `not query.strip()` used by all three
backend search methods: the stripped query is empty exactly when every
character of the query is whitespace. -/
def strippedEmpty (query : String) : Bool :=
  query.data.all Char.isWhitespace

/-- Embeds the result computation of `AptBackend.search_packages`
(`apt_backend.py` lines 48-97): a whitespace-only query returns `[]`
before any subprocess call, and otherwise the parsed `apt-cache search`
output lines — abstracted as the catalog list `catalog` the command
would yield for the query — are truncated to `limit`
(`lines[:limit]`). -/
def aptSearchBody (catalog : List Package) (query : String) (limit : Nat) : List Package :=
  if strippedEmpty query then [] else catalog.take limit

/-- Embeds the result computation of the undecorated body of
`SnapBackend.search_packages` (`snap_backend.py` lines 62-114): the same
whitespace check, then the parsed `snap find` lines truncated to `limit`
(`lines[1:limit+1]`). -/
def snapSearchBody (catalog : List Package) (query : String) (limit : Nat) : List Package :=
  if strippedEmpty query then [] else catalog.take limit

/-- Embeds the result computation of `FlatpakBackend.search_packages`
(`flatpak_backend.py` lines 87-118): the same whitespace check, then at
most `limit` parsed records (`hits[:limit]` on the API path,
`lines[1:limit+1]` on the CLI path). -/
def flatpakSearchBody (catalog : List Package) (query : String) (limit : Nat) : List Package :=
  if strippedEmpty query then [] else catalog.take limit

/-- `AptBackend.search_packages` as a loop backend (success path). -/
def aptBackend (catalog : List Package) : Backend :=
  fun query limit => Except.ok (aptSearchBody catalog query limit)

/-- `SnapBackend.search_packages` as a loop backend (success path,
rate-limit decorator effect modelled separately by
`snapSearchDecorated`). -/
def snapBackend (catalog : List Package) : Backend :=
  fun query limit => Except.ok (snapSearchBody catalog query limit)

/-- `FlatpakBackend.search_packages` as a loop backend (success path). -/
def flatpakBackend (catalog : List Package) : Backend :=
  fun query limit => Except.ok (flatpakSearchBody catalog query limit)

/-- Embeds `SnapBackend.search_packages` together with its
`@rate_limit('snap', wait=True)` decorator (`snap_backend.py` line 61,
`rate_limiter.py` lines 184-207): the decorator calls
`limiter.wait_if_needed()` — which invokes `is_allowed` on the shared
snap `RateLimiter`, recording a timestamp on admission — before the
wrapped body runs its whitespace check.  This models the call at a
limiter state that admits immediately, in which case `wait_if_needed`
performs exactly one `is_allowed` step. -/
def snapSearchDecorated (catalog : List Package) (query : String) (limit : Nat)
    (snapLimiter : RateLimiter) (now : ℚ) : List Package × RateLimiter :=
  let step := RateLimiter.is_allowed snapLimiter now "default"
  (snapSearchBody catalog query limit, step.2)

/-! Theorems.  Helper lemmas come first; the claim theorems carry doc
comments naming their claim. -/

/-- Soft-deleting rows does not change which `package_name` values occur
in the table, since `remove_installed_app` only rewrites the
`deleted_at` column. -/
theorem any_package_name_remove (db : InstalledAppsDB) (t : Nat) (pkg : String) :
    (remove_installed_app db t pkg).installed_apps.any (fun r => r.package_name == pkg)
      = db.installed_apps.any (fun r => r.package_name == pkg) := by
  unfold remove_installed_app
  rw [List.any_map]
  congr 1
  funext r
  by_cases hc : (r.package_name == pkg && r.deleted_at == none) = true
  · simp [Function.comp, hc]
  · simp [Function.comp, hc]

/-- C2.  Global cap invariant: whatever the query and whatever the
enabled backends do — including ignoring the `limit` they were passed
and returning arbitrarily many records — the list produced by
`SearchWorker.run` has length at most `MAX_TOTAL_RESULTS = 450`. -/
theorem searchWorkerRun_length_le (backends : List Backend) (query : String) :
    (searchWorkerRun backends query).length ≤ MAX_TOTAL_RESULTS := by
  have helper : ∀ r : List Package,
      (if MAX_TOTAL_RESULTS < r.length then r.take MAX_TOTAL_RESULTS else r).length
        ≤ MAX_TOTAL_RESULTS := by
    intro r
    split
    · rw [List.length_take]
      exact min_le_left _ _
    · omega
  exact helper ((searchLoop backends query [] 0).1)

/-- C6.  Preference whitelist rejection: for any key outside
`ALLOWED_PREFERENCE_KEYS`, `update_preference` raises the validation
error (`Except.error`), executes no storage query (empty executed-query
list, so the key is never interpolated into a query string), and leaves
the whole preference state — the `user_prefs` table included — exactly
as it was. -/
theorem update_preference_rejects_unknown_key (db : UserPrefsDB) (key : String)
    (value : Int) (h : key ∉ ALLOWED_PREFERENCE_KEYS) :
    update_preference db key value
      = (Except.error ("Invalid preference key: " ++ key), db, []) := by
  unfold update_preference
  rw [if_pos h]

/-- Witness for C6 at the spec's concrete injection attempt: the key
carrying a trailing `DROP TABLE user_prefs` payload is rejected and the
state (whose table list still contains `user_prefs`) is untouched. -/
theorem update_preference_rejects_unknown_key_witness :
    update_preference
        ⟨["installed_apps", "user_prefs", "logs", "custom_repositories"],
         ⟨1, 1, 1, 1, 30, 1⟩⟩
        "repo_apt_enabled; DROP TABLE user_prefs" 1
      = (Except.error
          ("Invalid preference key: " ++ "repo_apt_enabled; DROP TABLE user_prefs"),
         ⟨["installed_apps", "user_prefs", "logs", "custom_repositories"],
          ⟨1, 1, 1, 1, 30, 1⟩⟩, []) :=
  update_preference_rejects_unknown_key _ _ 1 (by decide)

/-- C9.  A single `RateLimiter` instance ignores its `key` argument
entirely: two `is_allowed` calls differing only in the key produce the
same admission decision and the same successor state.  Per-key isolation
exists only across instances: `MultiRateLimiter.is_allowed` on one key
leaves the stored limiter of every other key unchanged. -/
theorem rateLimiter_ignores_key :
    (∀ (s : RateLimiter) (now : ℚ) (k1 k2 : String),
        RateLimiter.is_allowed s now k1 = RateLimiter.is_allowed s now k2) ∧
    (∀ (m : MultiRateLimiter) (now : ℚ) (k1 k2 : String), k1 ≠ k2 →
        (MultiRateLimiter.is_allowed m now k1).2.limiters k2 = m.limiters k2) := by
  constructor
  · intro s now k1 k2
    rfl
  · intro m now k1 k2 hne
    have hne' : k2 ≠ k1 := Ne.symm hne
    unfold MultiRateLimiter.is_allowed MultiRateLimiter.get_limiter
    cases h : m.limiters k1 with
    | some l => simp [hne']
    | none => simp [hne']

/-- Witness for C9 on concrete keys and a fresh limiter / registry. -/
theorem rateLimiter_ignores_key_witness :
    RateLimiter.is_allowed (RateLimiter.init 5 60) 0 "flathub"
      = RateLimiter.is_allowed (RateLimiter.init 5 60) 0 "snap" ∧
    (MultiRateLimiter.is_allowed (MultiRateLimiter.init 100 60) 0 "flathub").2.limiters "snap"
      = (MultiRateLimiter.init 100 60).limiters "snap" :=
  ⟨rateLimiter_ignores_key.1 (RateLimiter.init 5 60) 0 "flathub" "snap",
   rateLimiter_ignores_key.2 (MultiRateLimiter.init 100 60) 0 "flathub" "snap" (by decide)⟩

/-- Counterexample to C5 as stated: `AdaptiveRateLimiter.__init__`
accepts no `sample_size` argument and fixes `sample_size = 20`, so a
limiter built by the constructor with `initial_max_requests = 100`, fed
7 errors and then 3 successes, has performed no adaptation after the
10th recorded outcome: `current_max` is still `100` and the counters
hold `3` successes and `7` errors instead of being reset. -/
theorem adaptive_ctor_no_reduction_after_tenth :
    let s := (AdaptiveRateLimiter.record_success)^[3]
               ((AdaptiveRateLimiter.record_error)^[7] (AdaptiveRateLimiter.init 100 60))
    (AdaptiveRateLimiter.init 100 60).sample_size = 20 ∧
    s.current_max = 100 ∧ s.success_count = 3 ∧ s.error_count = 7 := by
  decide

/-- C5 amended.  With `sample_size` set to `10` by attribute assignment
after construction (exactly what the repository's own tests do), an
`AdaptiveRateLimiter` with `initial_max_requests = 100` — hence
`min_requests = 10` — fed 7 errors and then 3 successes keeps
`current_max = 100` through the first 9 outcomes and, immediately at the
10th recorded outcome, reduces `current_max` to `50 = max 10 (100 / 2)`
and resets both counters to zero. -/
theorem adaptive_reduction_at_tenth_outcome :
    let s0 : AdaptiveRateLimiter :=
      { AdaptiveRateLimiter.init 100 60 with sample_size := 10 }
    let er := AdaptiveRateLimiter.record_error
    let rs := AdaptiveRateLimiter.record_success
    let s9 := rs (rs (er (er (er (er (er (er (er s0))))))))
    let s10 := rs s9
    s0.min_requests = 10 ∧
    s9.current_max = 100 ∧ s9.success_count = 2 ∧ s9.error_count = 7 ∧
    s10.current_max = 50 ∧ s10.success_count = 0 ∧ s10.error_count = 0 := by
  intro s0 er rs s9 s10
  have e1 : er s0 = ⟨60, 10, 100, 100, 0, 1, 3 / 10, 95 / 100, 10⟩ := rfl
  have e2 : er ⟨60, 10, 100, 100, 0, 1, 3 / 10, 95 / 100, 10⟩
      = ⟨60, 10, 100, 100, 0, 2, 3 / 10, 95 / 100, 10⟩ := rfl
  have e3 : er ⟨60, 10, 100, 100, 0, 2, 3 / 10, 95 / 100, 10⟩
      = ⟨60, 10, 100, 100, 0, 3, 3 / 10, 95 / 100, 10⟩ := rfl
  have e4 : er ⟨60, 10, 100, 100, 0, 3, 3 / 10, 95 / 100, 10⟩
      = ⟨60, 10, 100, 100, 0, 4, 3 / 10, 95 / 100, 10⟩ := rfl
  have e5 : er ⟨60, 10, 100, 100, 0, 4, 3 / 10, 95 / 100, 10⟩
      = ⟨60, 10, 100, 100, 0, 5, 3 / 10, 95 / 100, 10⟩ := rfl
  have e6 : er ⟨60, 10, 100, 100, 0, 5, 3 / 10, 95 / 100, 10⟩
      = ⟨60, 10, 100, 100, 0, 6, 3 / 10, 95 / 100, 10⟩ := rfl
  have e7 : er ⟨60, 10, 100, 100, 0, 6, 3 / 10, 95 / 100, 10⟩
      = ⟨60, 10, 100, 100, 0, 7, 3 / 10, 95 / 100, 10⟩ := rfl
  have e8 : rs ⟨60, 10, 100, 100, 0, 7, 3 / 10, 95 / 100, 10⟩
      = ⟨60, 10, 100, 100, 1, 7, 3 / 10, 95 / 100, 10⟩ := rfl
  have e9 : rs ⟨60, 10, 100, 100, 1, 7, 3 / 10, 95 / 100, 10⟩
      = ⟨60, 10, 100, 100, 2, 7, 3 / 10, 95 / 100, 10⟩ := rfl
  have h9 : s9 = ⟨60, 10, 100, 100, 2, 7, 3 / 10, 95 / 100, 10⟩ := by
    show rs (rs (er (er (er (er (er (er (er s0)))))))) = _
    rw [e1, e2, e3, e4, e5, e6, e7, e8, e9]
  have h10 : rs ⟨60, 10, 100, 100, 2, 7, 3 / 10, 95 / 100, 10⟩
      = ⟨60, 10, 100, 50, 0, 0, 3 / 10, 95 / 100, 10⟩ := by
    show AdaptiveRateLimiter.record_success _ = _
    unfold AdaptiveRateLimiter.record_success AdaptiveRateLimiter.adapt_if_needed
    norm_num
  have hs10 : s10 = ⟨60, 10, 100, 50, 0, 0, 3 / 10, 95 / 100, 10⟩ := by
    show rs s9 = _
    rw [h9, h10]
  exact ⟨rfl, by rw [h9], by rw [h9], by rw [h9], by rw [hs10], by rw [hs10], by rw [hs10]⟩

/-- C10.  `add_installed_app` returns `False` and inserts nothing
whenever any existing row carries the same `package_name` — the
hypothesis allows that row to be soft-deleted, since the table's
`UNIQUE` constraint spans all rows — and consequently the same holds
after `remove_installed_app` soft-deletes the package's row: a later
`add_installed_app` for that `package_name` returns `False` instead of
creating a fresh active row. -/
theorem add_installed_app_blocked_by_any_row
    (db : InstalledAppsDB) (tR tB : Nat)
    (nm pt sr v d pkg : String)
    (h : ∃ r ∈ db.installed_apps, r.package_name = pkg) :
    add_installed_app db tB nm pkg pt sr v d = (false, db) ∧
    add_installed_app (remove_installed_app db tR pkg) tB nm pkg pt sr v d
      = (false, remove_installed_app db tR pkg) := by
  have hany : db.installed_apps.any (fun r => r.package_name == pkg) = true := by
    rw [List.any_eq_true]
    obtain ⟨r, hr, he⟩ := h
    exact ⟨r, hr, by simp [he]⟩
  constructor
  · unfold add_installed_app
    rw [if_pos hany]
  · unfold add_installed_app
    rw [if_pos ((any_package_name_remove db tR pkg).trans hany)]

/-- Witness for C10: the sole row for `pkg-x` is soft-deleted
(`deleted_at = some 5`), yet re-adding `pkg-x` fails and changes
nothing. -/
theorem add_installed_app_blocked_by_any_row_witness :
    add_installed_app
        ⟨[⟨1, "Pkg X", "pkg-x", "apt", "Ubuntu/APT", "1.0", "desc", 0, some 5⟩], 2⟩
        7 "Pkg X" "pkg-x" "apt" "Ubuntu/APT" "1.0" "desc"
      = (false,
         ⟨[⟨1, "Pkg X", "pkg-x", "apt", "Ubuntu/APT", "1.0", "desc", 0, some 5⟩], 2⟩) ∧
    add_installed_app
        (remove_installed_app
          ⟨[⟨1, "Pkg X", "pkg-x", "apt", "Ubuntu/APT", "1.0", "desc", 0, some 5⟩], 2⟩ 6 "pkg-x")
        7 "Pkg X" "pkg-x" "apt" "Ubuntu/APT" "1.0" "desc"
      = (false,
         remove_installed_app
          ⟨[⟨1, "Pkg X", "pkg-x", "apt", "Ubuntu/APT", "1.0", "desc", 0, some 5⟩], 2⟩ 6 "pkg-x") :=
  add_installed_app_blocked_by_any_row _ 6 7 "Pkg X" "apt" "Ubuntu/APT" "1.0" "desc" "pkg-x"
    (by decide)

/-- Counterexample to C1 as stated: starting from an empty table,
install `pkg-x`, soft-delete it, then re-install.  The claim asserts the
re-install creates a second, new row and `is_app_installed` is `true`
again; in fact the re-install returns `false`, the table keeps exactly
one (soft-deleted) row, and `is_app_installed` stays `false`, because
the `UNIQUE` constraint on `package_name` also covers the soft-deleted
row. -/
theorem soft_delete_reinstall_counterexample :
    let db0 : InstalledAppsDB := ⟨[], 1⟩
    let s1 := add_installed_app db0 0 "Pkg X" "pkg-x" "apt" "Ubuntu/APT" "1.0" "desc"
    let db2 := remove_installed_app s1.2 1 "pkg-x"
    let s3 := add_installed_app db2 2 "Pkg X" "pkg-x" "apt" "Ubuntu/APT" "1.0" "desc"
    s1.1 = true ∧
    is_app_installed s1.2 "pkg-x" = true ∧
    is_app_installed db2 "pkg-x" = false ∧
    s3.1 = false ∧
    s3.2 = db2 ∧
    s3.2.installed_apps.length = 1 ∧
    is_app_installed s3.2 "pkg-x" = false := by
  decide

/-- Soft-deleting `pkg` rows leaves a list untouched when none of its
rows carries `pkg`. -/
theorem map_mark_eq_self (l : List AppRow) (pkg : String) (t : Nat)
    (h : ∀ r ∈ l, r.package_name ≠ pkg) :
    l.map (fun r => if r.package_name == pkg && r.deleted_at == none then
        { r with deleted_at := some t } else r) = l := by
  induction l with
  | nil => rfl
  | cons a l ih =>
    have ha : (a.package_name == pkg) = false := by
      simpa using h a (List.mem_cons_self a l)
    have tail := ih (fun r hr => h r (List.mem_cons_of_mem a hr))
    simp only [List.map_cons]
    rw [tail]
    have hcond : (a.package_name == pkg && a.deleted_at == none) = false := by
      rw [ha, Bool.false_and]
    simp [hcond]

/-- C1 amended.  Soft-delete round trip as the code implements it:
starting from a table with no row for `pkg`, a successful install makes
`is_app_installed pkg` true with exactly one active row; after
`remove_installed_app` the row survives with `deleted_at = some t2` and
`is_app_installed pkg` is false; but a subsequent re-install via
`add_installed_app` does NOT create a second row — it returns `false`
and leaves the table unchanged, so `is_app_installed pkg` stays false —
because the table's `UNIQUE` constraint on `package_name` also covers
the soft-deleted row.  The at-most-one-active-row invariant holds at
every stage. -/
theorem soft_delete_round_trip_amended
    (db db1 db2 : InstalledAppsDB) (ok1 : Bool) (t1 t2 t3 : Nat)
    (nm pkg pt sr v d nm2 pt2 sr2 v2 d2 : String)
    (hfresh : ∀ r ∈ db.installed_apps, r.package_name ≠ pkg)
    (e1 : add_installed_app db t1 nm pkg pt sr v d = (ok1, db1))
    (e2 : remove_installed_app db1 t2 pkg = db2) :
    ok1 = true ∧
    is_app_installed db1 pkg = true ∧
    is_app_installed db2 pkg = false ∧
    (∃ r ∈ db2.installed_apps, r.package_name = pkg ∧ r.deleted_at = some t2) ∧
    add_installed_app db2 t3 nm2 pkg pt2 sr2 v2 d2 = (false, db2) ∧
    (activeRows db1 pkg).length = 1 ∧
    (activeRows db2 pkg).length = 0 := by
  have hany : db.installed_apps.any (fun r => r.package_name == pkg) = false := by
    rw [List.any_eq_false]
    intro r hr
    simpa using hfresh r hr
  have hactA : db.installed_apps.any
      (fun r => r.package_name == pkg && r.deleted_at == none) = false := by
    rw [List.any_eq_false]
    intro r hr
    simp [hfresh r hr]
  have hfiltA : db.installed_apps.filter
      (fun r => r.package_name == pkg && r.deleted_at == none) = [] := by
    rw [List.filter_eq_nil_iff]
    intro r hr
    simp [hfresh r hr]
  have hrow : add_installed_app db t1 nm pkg pt sr v d
      = (true, ⟨db.installed_apps ++ [⟨db.next_id, nm, pkg, pt, sr, v, d, t1, none⟩],
                db.next_id + 1⟩) := by
    unfold add_installed_app
    rw [if_neg (by simp [hany])]
  rw [hrow] at e1
  injection e1 with hok hdb1
  subst hdb1
  subst hok
  have hremove : remove_installed_app
      ⟨db.installed_apps ++ [⟨db.next_id, nm, pkg, pt, sr, v, d, t1, none⟩],
       db.next_id + 1⟩ t2 pkg
      = ⟨db.installed_apps ++ [⟨db.next_id, nm, pkg, pt, sr, v, d, t1, some t2⟩],
         db.next_id + 1⟩ := by
    unfold remove_installed_app
    simp only [List.map_append, map_mark_eq_self db.installed_apps pkg t2 hfresh]
    simp
  rw [hremove] at e2
  subst e2
  have hany2 : (db.installed_apps ++
      [(⟨db.next_id, nm, pkg, pt, sr, v, d, t1, some t2⟩ : AppRow)]).any
        (fun r => r.package_name == pkg) = true := by
    simp [List.any_append]
  refine ⟨rfl, ?_, ?_, ?_, ?_, ?_, ?_⟩
  · simp [is_app_installed, List.any_append]
  · simp [is_app_installed, List.any_append, hactA]
  · refine ⟨⟨db.next_id, nm, pkg, pt, sr, v, d, t1, some t2⟩, ?_, rfl, rfl⟩
    simp
  · unfold add_installed_app
    rw [if_pos hany2]
  · simp [activeRows, List.filter_append, hfiltA]
  · simp [activeRows, List.filter_append, hfiltA]

/-- Witness for C1 amended on the concrete `pkg-x` scenario from an
empty table. -/
theorem soft_delete_round_trip_amended_witness :
    (true : Bool) = true ∧
    is_app_installed
      ⟨[⟨1, "Pkg X", "pkg-x", "apt", "Ubuntu/APT", "1.0", "desc", 0, none⟩], 2⟩ "pkg-x" = true ∧
    is_app_installed
      ⟨[⟨1, "Pkg X", "pkg-x", "apt", "Ubuntu/APT", "1.0", "desc", 0, some 1⟩], 2⟩ "pkg-x" = false ∧
    (∃ r ∈ (⟨[⟨1, "Pkg X", "pkg-x", "apt", "Ubuntu/APT", "1.0", "desc", 0, some 1⟩], 2⟩ :
        InstalledAppsDB).installed_apps,
      r.package_name = "pkg-x" ∧ r.deleted_at = some 1) ∧
    add_installed_app
      ⟨[⟨1, "Pkg X", "pkg-x", "apt", "Ubuntu/APT", "1.0", "desc", 0, some 1⟩], 2⟩
      2 "Pkg X" "pkg-x" "apt" "Ubuntu/APT" "1.0" "desc"
      = (false, ⟨[⟨1, "Pkg X", "pkg-x", "apt", "Ubuntu/APT", "1.0", "desc", 0, some 1⟩], 2⟩) ∧
    (activeRows
      ⟨[⟨1, "Pkg X", "pkg-x", "apt", "Ubuntu/APT", "1.0", "desc", 0, none⟩], 2⟩ "pkg-x").length = 1 ∧
    (activeRows
      ⟨[⟨1, "Pkg X", "pkg-x", "apt", "Ubuntu/APT", "1.0", "desc", 0, some 1⟩], 2⟩ "pkg-x").length = 0 :=
  soft_delete_round_trip_amended ⟨[], 1⟩
    ⟨[⟨1, "Pkg X", "pkg-x", "apt", "Ubuntu/APT", "1.0", "desc", 0, none⟩], 2⟩
    ⟨[⟨1, "Pkg X", "pkg-x", "apt", "Ubuntu/APT", "1.0", "desc", 0, some 1⟩], 2⟩
    true 0 1 2 "Pkg X" "pkg-x" "apt" "Ubuntu/APT" "1.0" "desc"
    "Pkg X" "apt" "Ubuntu/APT" "1.0" "desc"
    (by simp) (by decide) (by decide)

/-- When the accumulator already holds `MAX_TOTAL_RESULTS` records the
loop stops immediately, whatever backends remain. -/
theorem searchLoop_break (bs : List Backend) (q : String) (res : List Package) (c : Nat)
    (h : MAX_TOTAL_RESULTS - res.length = 0) :
    searchLoop bs q res c = (res, c) := by
  cases bs with
  | nil => rfl
  | cons b rest =>
    simp only [searchLoop]
    rw [if_pos h]

/-- The result list computed by the loop does not depend on the value of
the call counter it is threaded with. -/
theorem searchLoop_fst_ignores_calls (bs : List Backend) (q : String)
    (res : List Package) (c c' : Nat) :
    (searchLoop bs q res c).1 = (searchLoop bs q res c').1 := by
  induction bs generalizing res c c' with
  | nil => rfl
  | cons b rest ih =>
    simp only [searchLoop]
    by_cases h : MAX_TOTAL_RESULTS - res.length = 0
    · rw [if_pos h, if_pos h]
    · rw [if_neg h, if_neg h]
      cases hb : b q (min MAX_PER_SOURCE (MAX_TOTAL_RESULTS - res.length)) with
      | ok packages => exact ih _ _ _
      | error e => exact ih _ _ _

/-- A backend that raises contributes nothing: the loop's result list
over any backend sequence containing a raising backend equals the result
list over the same sequence with that backend removed. -/
theorem searchLoop_error_skip (pre post : List Backend) (msg q : String)
    (res : List Package) (c c' : Nat) :
    (searchLoop (pre ++ (fun _ _ => Except.error msg) :: post) q res c).1
      = (searchLoop (pre ++ post) q res c').1 := by
  induction pre generalizing res c c' with
  | nil =>
    simp only [List.nil_append]
    by_cases h : MAX_TOTAL_RESULTS - res.length = 0
    · rw [searchLoop_break _ _ _ _ h, searchLoop_break _ _ _ _ h]
    · have hstep : searchLoop ((fun _ _ => Except.error msg) :: post) q res c
          = searchLoop post q res (c + 1) := by
        simp only [searchLoop]
        rw [if_neg h]
      rw [hstep]
      exact searchLoop_fst_ignores_calls _ _ _ _ _
  | cons b rest ih =>
    simp only [List.cons_append, searchLoop]
    by_cases h : MAX_TOTAL_RESULTS - res.length = 0
    · rw [if_pos h, if_pos h]
    · rw [if_neg h, if_neg h]
      cases hb : b q (min MAX_PER_SOURCE (MAX_TOTAL_RESULTS - res.length)) with
      | ok packages => exact ih _ _ _
      | error e => exact ih _ _ _

/-- C4.  Single-adapter-failure isolation: for every query and every
surrounding backend list, inserting a backend whose search raises leaves
the output of `SearchWorker.run` exactly as it would have been without
that backend — the failed adapter contributes zero records, the other
adapters' records all still appear, and (the embedded `run` being a
total function that handles the error branch) no exception escapes the
aggregation loop. -/
theorem aggregator_single_failure_isolated (pre post : List Backend) (msg q : String) :
    searchWorkerRun (pre ++ (fun _ _ => Except.error msg) :: post) q
      = searchWorkerRun (pre ++ post) q := by
  unfold searchWorkerRun
  rw [searchLoop_error_skip pre post msg q [] 0 0]

/-- C3.  Per-source fairness under truncation with the default constants
`MAX_PER_SOURCE = 150` and `MAX_TOTAL_RESULTS = 450`: for a non-blank
query, if each of the three source-faithful adapters has at least 150
matching records in its catalog, the aggregated result is exactly the
first 150 records of the APT catalog, then the first 150 of the Snap
catalog, then the first 150 of the Flatpak catalog — 150 records from
each adapter, in fixed adapter-priority order, each adapter's own
ordering preserved within its block. -/
theorem per_source_fairness (cat1 cat2 cat3 : List Package) (q : String)
    (hq : strippedEmpty q = false)
    (h1 : MAX_PER_SOURCE ≤ cat1.length) (h2 : MAX_PER_SOURCE ≤ cat2.length)
    (h3 : MAX_PER_SOURCE ≤ cat3.length) :
    searchWorkerRun [aptBackend cat1, snapBackend cat2, flatpakBackend cat3] q
      = cat1.take MAX_PER_SOURCE ++ cat2.take MAX_PER_SOURCE ++ cat3.take MAX_PER_SOURCE ∧
    (cat1.take MAX_PER_SOURCE).length = MAX_PER_SOURCE ∧
    (cat2.take MAX_PER_SOURCE).length = MAX_PER_SOURCE ∧
    (cat3.take MAX_PER_SOURCE).length = MAX_PER_SOURCE := by
  rw [MAX_PER_SOURCE] at h1 h2 h3
  have l1 : (cat1.take 150).length = 150 := by
    rw [List.length_take]
    omega
  have l2 : (cat2.take 150).length = 150 := by
    rw [List.length_take]
    omega
  have l3 : (cat3.take 150).length = 150 := by
    rw [List.length_take]
    omega
  refine ⟨?_, ?_, ?_, ?_⟩
  · unfold searchWorkerRun
    norm_num [searchLoop, aptBackend, snapBackend, flatpakBackend,
      aptSearchBody, snapSearchBody, flatpakSearchBody, hq,
      MAX_TOTAL_RESULTS, MAX_PER_SOURCE, List.take_take, l1, l2, l3,
      List.length_append]
  · rw [MAX_PER_SOURCE]
    exact l1
  · rw [MAX_PER_SOURCE]
    exact l2
  · rw [MAX_PER_SOURCE]
    exact l3

/-- Witness for C3 with three catalogs of 150 identical records each and
the query `firefox`. -/
theorem per_source_fairness_witness :
    searchWorkerRun
        [aptBackend (List.replicate 150 default),
         snapBackend (List.replicate 150 default),
         flatpakBackend (List.replicate 150 default)] "firefox"
      = (List.replicate 150 (default : Package)).take MAX_PER_SOURCE
          ++ (List.replicate 150 (default : Package)).take MAX_PER_SOURCE
          ++ (List.replicate 150 (default : Package)).take MAX_PER_SOURCE ∧
    ((List.replicate 150 (default : Package)).take MAX_PER_SOURCE).length = MAX_PER_SOURCE ∧
    ((List.replicate 150 (default : Package)).take MAX_PER_SOURCE).length = MAX_PER_SOURCE ∧
    ((List.replicate 150 (default : Package)).take MAX_PER_SOURCE).length = MAX_PER_SOURCE :=
  per_source_fairness (List.replicate 150 default) (List.replicate 150 default)
    (List.replicate 150 default) "firefox" (by decide)
    (by simp [MAX_PER_SOURCE]) (by simp [MAX_PER_SOURCE]) (by simp [MAX_PER_SOURCE])

/-- Counterexample to C7 as stated: `SearchWorker.run` itself performs
no empty-query short-circuit.  On the whitespace-only query the run does
return the empty list, but it still invokes all three adapter search
methods (3 calls, not the claimed zero), and the snap adapter's
rate-limit decorator records a timestamp in the snap limiter — a token
is consumed — before the adapter's internal empty-query check runs. -/
theorem empty_query_counterexample :
    searchWorkerRun [aptBackend [], snapBackend [], flatpakBackend []] "   " = [] ∧
    searchWorkerCalls [aptBackend [], snapBackend [], flatpakBackend []] "   " = 3 ∧
    (snapSearchDecorated [] "   " 150 (RateLimiter.init 20 60) 0).1 = [] ∧
    (snapSearchDecorated [] "   " 150 (RateLimiter.init 20 60) 0).2.requests = [0] := by
  decide

/-- C7 amended.  For an empty or whitespace-only query the aggregation
loop does return an empty list, but only because each adapter's own
`search_packages` body checks the query and returns `[]`: the loop
itself performs one search call per enabled backend (three calls for
three backends, not zero), and the snap adapter's
`@rate_limit('snap', wait=True)` decorator consumes a rate-limit token
(appending `now` to the limiter's deque) before the body's empty-query
check, whenever the limiter admits the call. -/
theorem empty_query_amended (cat1 cat2 cat3 : List Package) (q : String)
    (hq : strippedEmpty q = true) (s : RateLimiter) (now : ℚ)
    (hadm : (s.requests.dropWhile (fun t => decide (t < now - s.time_window))).length
        < s.max_requests) :
    searchWorkerRun [aptBackend cat1, snapBackend cat2, flatpakBackend cat3] q = [] ∧
    searchWorkerCalls [aptBackend cat1, snapBackend cat2, flatpakBackend cat3] q = 3 ∧
    (snapSearchDecorated cat2 q MAX_PER_SOURCE s now).1 = [] ∧
    (snapSearchDecorated cat2 q MAX_PER_SOURCE s now).2.requests
      = s.requests.dropWhile (fun t => decide (t < now - s.time_window)) ++ [now] := by
  refine ⟨?_, ?_, ?_, ?_⟩
  · unfold searchWorkerRun
    norm_num [searchLoop, aptBackend, snapBackend, flatpakBackend,
      aptSearchBody, snapSearchBody, flatpakSearchBody, hq, MAX_TOTAL_RESULTS]
  · unfold searchWorkerCalls
    norm_num [searchLoop, aptBackend, snapBackend, flatpakBackend,
      aptSearchBody, snapSearchBody, flatpakSearchBody, hq, MAX_TOTAL_RESULTS]
  · simp [snapSearchDecorated, snapSearchBody, hq]
  · unfold snapSearchDecorated RateLimiter.is_allowed
    simp [hadm]

/-- Witness for C7 amended on the query of three spaces, empty catalogs,
and a fresh snap limiter (20 requests per 60 seconds) at time 0. -/
theorem empty_query_amended_witness :
    searchWorkerRun [aptBackend [], snapBackend [], flatpakBackend []] "   " = [] ∧
    searchWorkerCalls [aptBackend [], snapBackend [], flatpakBackend []] "   " = 3 ∧
    (snapSearchDecorated [] "   " MAX_PER_SOURCE (RateLimiter.init 20 60) 0).1 = [] ∧
    (snapSearchDecorated [] "   " MAX_PER_SOURCE (RateLimiter.init 20 60) 0).2.requests
      = (RateLimiter.init 20 60).requests.dropWhile
          (fun t => decide (t < 0 - (RateLimiter.init 20 60).time_window)) ++ [0] :=
  empty_query_amended [] [] [] "   " (by decide) (RateLimiter.init 20 60) 0 (by decide)

/-- C8.  `get_wait_time` meets its contract on every reachable limiter
state (deque no longer than `max_requests`, positive capacity): it
returns `0` exactly when a request would currently be admitted — fewer
than `max_requests` timestamps remain after purging entries older than
`now - time_window` — and otherwise returns
`(oldest_recorded_timestamp + time_window) - now` floored at `0`; in
particular it returns `0` whenever `is_allowed` would succeed, even
though the implementation compares the raw deque length without purging
stale entries first. -/
theorem get_wait_time_spec (s : RateLimiter) (now : ℚ) (key : String)
    (hlen : s.requests.length ≤ s.max_requests) (hpos : 0 < s.max_requests) :
    RateLimiter.get_wait_time s now key
      = some (if (s.requests.dropWhile (fun t => decide (t < now - s.time_window))).length
              < s.max_requests
          then 0
          else max 0 (s.requests.headI + s.time_window - now)) ∧
    ((RateLimiter.is_allowed s now key).1 = true →
      RateLimiter.get_wait_time s now key = some 0) := by
  have hmain : RateLimiter.get_wait_time s now key
      = some (if (s.requests.dropWhile (fun t => decide (t < now - s.time_window))).length
              < s.max_requests
          then 0
          else max 0 (s.requests.headI + s.time_window - now)) := by
    unfold RateLimiter.get_wait_time
    by_cases h : s.requests.length < s.max_requests
    · rw [if_pos h,
        if_pos (lt_of_le_of_lt (List.dropWhile_sublist _).length_le h)]
    · rw [if_neg h]
      have hlen' : s.requests.length = s.max_requests := le_antisymm hlen (not_lt.mp h)
      cases hr : s.requests with
      | nil =>
        rw [hr] at hlen'
        simp at hlen'
        omega
      | cons a t =>
        rw [hr] at hlen'
        show some (max 0 (a + s.time_window - now)) = _
        by_cases hp : a < now - s.time_window
        · have hlt : (t.dropWhile (fun t' => decide (t' < now - s.time_window))).length
              < s.max_requests := by
            have hd : (t.dropWhile (fun t' => decide (t' < now - s.time_window))).length
                ≤ t.length := (List.dropWhile_sublist _).length_le
            simp at hlen'
            omega
          rw [if_pos (by simpa [List.dropWhile_cons, hp] using hlt)]
          have hnonpos : a + s.time_window - now ≤ 0 := by linarith
          rw [max_eq_left hnonpos]
        · rw [if_neg (by simp [List.dropWhile_cons, hp, hlen'])]
          simp [List.headI]
  refine ⟨hmain, ?_⟩
  intro hall
  have hc : (s.requests.dropWhile (fun t => decide (t < now - s.time_window))).length
      < s.max_requests := by
    by_contra hnc
    unfold RateLimiter.is_allowed at hall
    rw [if_neg hnc] at hall
    simp at hall
  rw [hmain, if_pos hc]

/-- Witness for C8 on a limiter with capacity 2, window 10, one
recorded timestamp 5, queried at time 7. -/
theorem get_wait_time_spec_witness :
    RateLimiter.get_wait_time ⟨2, 10, [5]⟩ 7 "search"
      = some (if (([5] : List ℚ).dropWhile
              (fun t => decide (t < 7 - (10 : ℚ)))).length < 2
          then 0
          else max 0 (([5] : List ℚ).headI + 10 - 7)) ∧
    ((RateLimiter.is_allowed ⟨2, 10, [5]⟩ 7 "search").1 = true →
      RateLimiter.get_wait_time ⟨2, 10, [5]⟩ 7 "search" = some 0) :=
  get_wait_time_spec ⟨2, 10, [5]⟩ 7 "search" (by decide) (by decide)

end UPM
